import Mathlib

/-!
Verification of the ThruTheWall game logic (`src/ThruTheWall.py`).

The Python file is one update-draw loop over a handful of integer-valued
shared variables, plus helper functions mapping magic direction codes to
coordinate deltas and back.  Each Lean definition below is a shallow
embedding of the corresponding Python function: pure Python functions
become pure Lean functions, and the one helper that mutates a shared
variable (`check_paddle_collision`, which does `t += 10` under
`global t, tt`) is embedded as an explicit state transformer on the record
of shared variables.  Python `int` is embedded as `Int`; Python early
`return` statements are translated by factoring the code after the early
returns into a helper (`check_boundaries_top`).
-/

namespace ThruTheWall

/-! ## Direction constants (source lines 45-50) -/

def D_DOWN_RIGHT : Int := 100

def D_UP_RIGHT : Int := 120

def D_UP_LEFT : Int := 140

def D_DOWN_LEFT : Int := 160

def D_UP : Int := 180

def D_DOWN : Int := 200

/-- Embedding of `canonical` (source lines 62-64): `_VARIANT_TO_CANON.get(g, g)`
with the dictionary of source lines 54-60. -/
def canonical (g : Int) : Int :=
  if g = 106 then D_DOWN_RIGHT
  else if g = 125 then D_UP_RIGHT
  else if g = 145 then D_UP_LEFT
  else if g = 166 then D_DOWN_LEFT
  else if g = 206 then D_DOWN
  else g

/-- The shared scalar game variables of source lines 67-72:
total-games counter `tt`, score counter `t`, paddle position `a`,
wall-break flag `w`, direction `g`, round `r`. -/
structure Globals where
  tt : Int
  t : Int
  a : Int
  w : Int
  g : Int
  r : Int
deriving DecidableEq

/-- Initial values of the shared variables (source lines 67-72). -/
def initial_globals : Globals := ⟨-1, 0, 13, 0, D_DOWN, 0⟩

/-- Embedding of `move_ball` (source lines 123-153).  The direction is
canonicalized, then one of six deltas is applied; an unrecognized code
leaves the position unchanged. -/
def move_ball (m n g : Int) : Int × Int :=
  if canonical g = D_DOWN_RIGHT then (m + 1, n + 1)
  else if canonical g = D_UP_RIGHT then (m - 1, n + 1)
  else if canonical g = D_UP_LEFT then (m - 1, n - 1)
  else if canonical g = D_DOWN_LEFT then (m + 1, n - 1)
  else if canonical g = D_UP then (m - 1, n)
  else if canonical g = D_DOWN then (m + 1, n)
  else (m, n)

/-- The code of `check_boundaries` after its two early-return wall checks
(source lines 177-183): the top-of-screen check followed by `return g`. -/
def check_boundaries_top (m g : Int) : Int :=
  if m < 1 then
    if canonical g = D_UP_RIGHT ∨ canonical g = D_UP_LEFT ∨ canonical g = D_UP then D_DOWN
    else g
  else g

/-- Embedding of `check_boundaries` (source lines 155-183).  The Python
body is `if n > 30: ... elif n < 1: ...` where each arm may `return` a
new direction; when no early return fires, control falls through to the
top-of-screen check (`check_boundaries_top`).  Parameter `w` is accepted
but never read, exactly as in the source. -/
def check_boundaries (m n g w : Int) : Int :=
  if n > 30 then
    if canonical g = D_DOWN_RIGHT ∨ canonical g = D_UP_RIGHT then D_DOWN_LEFT
    else check_boundaries_top m g
  else if n < 1 then
    if canonical g = D_UP_LEFT ∨ canonical g = D_DOWN_LEFT then D_DOWN_RIGHT
    else check_boundaries_top m g
  else check_boundaries_top m g

/-- Embedding of `check_paddle_collision` (source lines 185-203).  The
Python function declares `global t, tt` and performs `t += 10` when the
ball is on the paddle row inside the paddle span, so it is embedded as a
state transformer on `Globals` returning the new direction together with
the updated shared state.  The `t += 10` of source line 195 happens
before the direction branch, hence every arm of the inner branch carries
the incremented `t`; the `n = a + 4` test of source line 201 and the
final fall-through `return g` of source line 203 are kept even though
they are unreachable inside the span check. -/
def check_paddle_collision (m n a g : Int) (s : Globals) : Int × Globals :=
  if m = 20 then
    if a ≤ n ∧ n ≤ a + 3 then
      if n = a ∨ n = a + 1 then (D_UP_LEFT, { s with t := s.t + 10 })
      else if n = a + 2 then (D_UP, { s with t := s.t + 10 })
      else if n = a + 3 ∨ n = a + 4 then (D_UP_RIGHT, { s with t := s.t + 10 })
      else (g, { s with t := s.t + 10 })
    else (g, s)
  else (g, s)

/-- State-lifting of `move_ball`: the source function (lines 123-153) has
no `global` statement and assigns no shared variable, so its action on
the shared state is the identity. -/
def move_ball_s (m n g : Int) (s : Globals) : (Int × Int) × Globals :=
  (move_ball m n g, s)

/-- State-lifting of `check_boundaries`: the source function (lines
155-183) has no `global` statement and assigns no shared variable, so its
action on the shared state is the identity. -/
def check_boundaries_s (m n g w : Int) (s : Globals) : Int × Globals :=
  (check_boundaries m n g w, s)

/-- Embedding of the score computation of `draw_status` (source line 115):
`current_score = tt * 600 + t`. -/
def draw_status_score (s : Globals) : Int :=
  s.tt * 600 + s.t

/-- Embedding of the state change and final-score computation of
`game_over` (source lines 213 and 216): `tt += 1` followed by
`final_score = tt * 600 + t`.  Returns the updated shared state and the
displayed final score. -/
def game_over_step (s : Globals) : Globals × Int :=
  let s2 : Globals := { s with tt := s.tt + 1 }
  (s2, s2.tt * 600 + s2.t)

/-- Embedding of the entry of `main_game_loop` (source lines 245-246):
`tt += 1` and `t = 0`. -/
def main_game_loop_enter (s : Globals) : Globals :=
  { s with tt := s.tt + 1, t := 0 }

/-- One completed game: enter `main_game_loop`, let play accumulate the
per-game score to `t_end`, then run the `game_over` state change and
final-score computation. -/
def completed_game (s : Globals) (t_end : Int) : Globals × Int :=
  game_over_step { main_game_loop_enter s with t := t_end }

/-- Move left by 1 when O is pressed and `a > 1` (source lines 267-268). -/
def input_left (o : Bool) (a : Int) : Int :=
  if o ∧ a > 1 then a - 1 else a

/-- Move left by 2 more when Shift and O are pressed and `a > 2`
(source lines 270-271). -/
def input_left2 (o lshift rshift : Bool) (a : Int) : Int :=
  if (lshift ∨ rshift) ∧ o ∧ a > 2 then a - 2 else a

/-- Move right by 1 when P is pressed and `a < 28` (source lines 273-274). -/
def input_right (p : Bool) (a : Int) : Int :=
  if p ∧ a < 28 then a + 1 else a

/-- Move right by 2 more when Shift and P are pressed and `a < 27`
(source lines 276-277). -/
def input_right2 (p lshift rshift : Bool) (a : Int) : Int :=
  if (lshift ∨ rshift) ∧ p ∧ a < 27 then a + 2 else a

/-- Embedding of the per-frame input handling of `main_game_loop`
(source lines 264-277): the four guarded paddle moves applied in source
order, with `o`, `p`, `lshift`, `rshift` the pressed states of the keys
O, P, left Shift and right Shift. -/
def input_step (o p lshift rshift : Bool) (a : Int) : Int :=
  input_right2 p lshift rshift (input_right p (input_left2 o lshift rshift (input_left o a)))

/-- The ball state of a round of `main_game_loop`: position `(m, n)` and
direction `g` (source lines 251-253). -/
structure Ball where
  m : Int
  n : Int
  g : Int
deriving DecidableEq

/-- Embedding of one iteration of the inner while loop body of
`main_game_loop` after input handling (source lines 280-282):
`g = check_paddle_collision(m, n, a, g)`, then
`g = check_boundaries(m, n, g, w)`, then `m, n = move_ball(m, n, g)`.
Returns the new ball state and the updated shared state. -/
def frame_step (a w : Int) (b : Ball) (s : Globals) : Ball × Globals :=
  let pc := check_paddle_collision b.m b.n a b.g s
  let g2 := check_boundaries b.m b.n pc.1 w
  let mn := move_ball b.m b.n g2
  (⟨mn.1, mn.2, g2⟩, pc.2)

/-- Ball states reachable inside one round of `main_game_loop`: the round
starts at `m = 10`, `n = 8 + random.randint(0, 13)` (so `8 ≤ n ≤ 21`),
`g = D_DOWN` (source lines 251-253), and the frame step runs only while
the loop guard `m <= 20` holds (source line 258), for any paddle
position `1 ≤ a ≤ 28`, any wall flag and any shared state. -/
inductive Reachable : Ball → Prop where
  | start (n0 : Int) (h8 : 8 ≤ n0) (h21 : n0 ≤ 21) : Reachable ⟨10, n0, D_DOWN⟩
  | step (b : Ball) (a w : Int) (s : Globals) (hr : Reachable b)
      (hm : b.m ≤ 20) (ha1 : 1 ≤ a) (ha2 : a ≤ 28) :
      Reachable (frame_step a w b s).1

/-- A Python `for` loop over the values `xs` whose body may end in
`break`: `body x = true` means the iteration for `x` executes `break`.
Returns the list of loop-variable values whose iterations ran. -/
def for_values_with_break (xs : List Int) (body : Int → Bool) : List Int :=
  match xs with
  | [] => []
  | x :: rest => if body x then [x] else x :: for_values_with_break rest body

/-- The body of the `for r in range(1, 7)` loop of `main_game_loop`
(source lines 249-295): run the round while loop, whose only normal exit
is its guard failing, and then execute the `break` of source line 295,
which is unconditional.  Hence every iteration that finishes its round
breaks. -/
def round_body_breaks (_r : Int) : Bool := true

/-- The loop-variable values for which the round loop of
`main_game_loop` runs a round (`for r in range(1, 7)` with the body
`round_body_breaks`). -/
def rounds_executed : List Int :=
  for_values_with_break [1, 2, 3, 4, 5, 6] round_body_breaks

/-- The guard of the inner while loop of `main_game_loop`
(source line 258): `m <= 20`. -/
def round_while_guard (m : Int) : Bool :=
  decide (m ≤ 20)

/-! ## Claim-side characterizations

These definitions follow the wording of the claims; the theorems below
compare them with the embeddings of the source functions above. -/

/-- The coordinate delta of a canonical direction code, as the claims
describe it: `(dm, dn)` added to `(m, n)`. -/
def direction_delta (d : Int) : Int × Int :=
  if d = D_DOWN_RIGHT then (1, 1)
  else if d = D_UP_RIGHT then (-1, 1)
  else if d = D_UP_LEFT then (-1, -1)
  else if d = D_DOWN_LEFT then (1, -1)
  else if d = D_UP then (-1, 0)
  else if d = D_DOWN then (1, 0)
  else (0, 0)

/-- The wall rules as the claim states them: a flat three-case rule on
`(m, n, canonical g)` with `g` returned unchanged otherwise. -/
def boundary_rule (m n g w : Int) : Int :=
  if n > 30 ∧ (canonical g = D_DOWN_RIGHT ∨ canonical g = D_UP_RIGHT) then D_DOWN_LEFT
  else if n < 1 ∧ (canonical g = D_UP_LEFT ∨ canonical g = D_DOWN_LEFT) then D_DOWN_RIGHT
  else if m < 1 ∧ (canonical g = D_UP_RIGHT ∨ canonical g = D_UP_LEFT ∨ canonical g = D_UP) then D_DOWN
  else g

/-- The paddle rule as the claim states it: a hit exactly when `m = 20`
and `a ≤ n ≤ a + 3`; on a hit, add 10 to `t` and choose the rebound by
the hit position, with `n = a + 3` giving the up-right rebound. -/
def paddle_rule (m n a g : Int) (s : Globals) : Int × Globals :=
  if m = 20 ∧ a ≤ n ∧ n ≤ a + 3 then
    (if n = a ∨ n = a + 1 then D_UP_LEFT
     else if n = a + 2 then D_UP
     else D_UP_RIGHT,
     { s with t := s.t + 10 })
  else (g, s)

/-! ## Helper lemmas -/

theorem canonical_idem (g : Int) : canonical (canonical g) = canonical g := by
  simp only [canonical, D_DOWN_RIGHT, D_UP_RIGHT, D_UP_LEFT, D_DOWN_LEFT, D_UP, D_DOWN]
  split_ifs <;> omega

theorem move_ball_m_le (m n g : Int) : (move_ball m n g).1 ≤ m + 1 := by
  unfold move_ball
  split_ifs <;> simp <;> omega

theorem move_ball_m_ge (m n g : Int) : m - 1 ≤ (move_ball m n g).1 := by
  unfold move_ball
  split_ifs <;> simp <;> omega

theorem move_ball_n_le (m n g : Int) : (move_ball m n g).2 ≤ n + 1 := by
  unfold move_ball
  split_ifs <;> simp <;> omega

theorem move_ball_n_ge (m n g : Int) : n - 1 ≤ (move_ball m n g).2 := by
  unfold move_ball
  split_ifs <;> simp <;> omega

theorem move_ball_m_stays (m n g : Int) (h1 : canonical g ≠ D_UP_RIGHT)
    (h2 : canonical g ≠ D_UP_LEFT) (h3 : canonical g ≠ D_UP) :
    m ≤ (move_ball m n g).1 := by
  unfold move_ball
  split_ifs <;> simp <;> omega

theorem move_ball_n_stays_le (m n g : Int) (h1 : canonical g ≠ D_DOWN_RIGHT)
    (h2 : canonical g ≠ D_UP_RIGHT) :
    (move_ball m n g).2 ≤ n := by
  unfold move_ball
  split_ifs <;> simp <;> omega

theorem move_ball_n_stays_ge (m n g : Int) (h1 : canonical g ≠ D_UP_LEFT)
    (h2 : canonical g ≠ D_DOWN_LEFT) :
    n ≤ (move_ball m n g).2 := by
  unfold move_ball
  split_ifs <;> simp <;> omega

theorem check_boundaries_right_wall (m n g w : Int) (hn : 30 < n) :
    canonical (check_boundaries m n g w) ≠ D_DOWN_RIGHT ∧
    canonical (check_boundaries m n g w) ≠ D_UP_RIGHT := by
  unfold check_boundaries check_boundaries_top
  split_ifs <;> first | decide | constructor <;> first | tauto | omega

theorem check_boundaries_left_wall (m n g w : Int) (hn : n < 1) :
    canonical (check_boundaries m n g w) ≠ D_UP_LEFT ∧
    canonical (check_boundaries m n g w) ≠ D_DOWN_LEFT := by
  unfold check_boundaries check_boundaries_top
  split_ifs <;> first | decide | constructor <;> first | tauto | omega

theorem check_boundaries_top_wall (m n g w : Int) (hm : m < 1) :
    canonical (check_boundaries m n g w) ≠ D_UP_RIGHT ∧
    canonical (check_boundaries m n g w) ≠ D_UP_LEFT ∧
    canonical (check_boundaries m n g w) ≠ D_UP := by
  unfold check_boundaries check_boundaries_top
  split_ifs <;> first | decide | refine ⟨?_, ?_, ?_⟩ <;> first | tauto | omega

theorem frame_step_fst_m (a w : Int) (b : Ball) (s : Globals) :
    (frame_step a w b s).1.m =
      (move_ball b.m b.n
        (check_boundaries b.m b.n (check_paddle_collision b.m b.n a b.g s).1 w)).1 := rfl

theorem frame_step_fst_n (a w : Int) (b : Ball) (s : Globals) :
    (frame_step a w b s).1.n =
      (move_ball b.m b.n
        (check_boundaries b.m b.n (check_paddle_collision b.m b.n a b.g s).1 w)).2 := rfl

theorem frame_step_inv (a w : Int) (b : Ball) (s : Globals)
    (hm0 : 0 ≤ b.m) (hm : b.m ≤ 20) (hn0 : 0 ≤ b.n) (hn : b.n ≤ 31) :
    0 ≤ (frame_step a w b s).1.n ∧ (frame_step a w b s).1.n ≤ 31 ∧
    0 ≤ (frame_step a w b s).1.m ∧ (frame_step a w b s).1.m ≤ 21 := by
  rw [frame_step_fst_m, frame_step_fst_n]
  refine ⟨?_, ?_, ?_, ?_⟩
  · by_cases h : 1 ≤ b.n
    · have := move_ball_n_ge b.m b.n
        (check_boundaries b.m b.n (check_paddle_collision b.m b.n a b.g s).1 w)
      omega
    · have hlt : b.n < 1 := by omega
      have hcb := check_boundaries_left_wall b.m b.n (check_paddle_collision b.m b.n a b.g s).1 w hlt
      have := move_ball_n_stays_ge b.m b.n
        (check_boundaries b.m b.n (check_paddle_collision b.m b.n a b.g s).1 w) hcb.1 hcb.2
      omega
  · by_cases h : b.n ≤ 30
    · have := move_ball_n_le b.m b.n
        (check_boundaries b.m b.n (check_paddle_collision b.m b.n a b.g s).1 w)
      omega
    · have hgt : 30 < b.n := by omega
      have hcb := check_boundaries_right_wall b.m b.n (check_paddle_collision b.m b.n a b.g s).1 w hgt
      have := move_ball_n_stays_le b.m b.n
        (check_boundaries b.m b.n (check_paddle_collision b.m b.n a b.g s).1 w) hcb.1 hcb.2
      omega
  · by_cases h : 1 ≤ b.m
    · have := move_ball_m_ge b.m b.n
        (check_boundaries b.m b.n (check_paddle_collision b.m b.n a b.g s).1 w)
      omega
    · have hlt : b.m < 1 := by omega
      have hcb := check_boundaries_top_wall b.m b.n (check_paddle_collision b.m b.n a b.g s).1 w hlt
      have := move_ball_m_stays b.m b.n
        (check_boundaries b.m b.n (check_paddle_collision b.m b.n a b.g s).1 w)
        hcb.1 hcb.2.1 hcb.2.2
      omega
  · have := move_ball_m_le b.m b.n
      (check_boundaries b.m b.n (check_paddle_collision b.m b.n a b.g s).1 w)
    omega

/-! ## Claim theorems -/

/-- C1: the claim says the round system advances `r` through 1..6,
starting a new round after each round in which the ball does not pass
the baseline.  The code does not: the `break` at source line 295 is
unconditional, so the round loop runs for `r = 1` only, never reaches
`r = 6`, and the inner while loop guard `m <= 20` means a round ends
exactly when the ball passes the paddle row. -/
theorem C1_round_loop_plays_single_round :
    rounds_executed = [1] ∧ rounds_executed ≠ [1, 2, 3, 4, 5, 6] ∧
    (6 : Int) ∉ rounds_executed ∧
    round_while_guard 20 = true ∧ round_while_guard 21 = false := by
  refine ⟨rfl, by decide, by decide, by decide, by decide⟩

/-- C2: the score shown each frame by `draw_status` and the final score
shown by `game_over` are both `tt * 600 + t`, where `tt` is the value of
the total-games counter at the moment the score is computed (in
`game_over` that is after its own `tt += 1`). -/
theorem C2_score_formula (s : Globals) :
    draw_status_score s = s.tt * 600 + s.t ∧
    (game_over_step s).2 = (game_over_step s).1.tt * 600 + (game_over_step s).1.t :=
  ⟨rfl, rfl⟩

/-- C3: `move_ball m n g` returns exactly `(m, n)` plus the delta of the
canonical direction of `g`: `(1, 1)` for down-right, `(-1, 1)` for
up-right, `(-1, -1)` for up-left, `(1, -1)` for down-left, `(-1, 0)` for
up, `(1, 0)` for down, and `(0, 0)` for any other code. -/
theorem C3_move_ball_delta (m n g : Int) :
    move_ball m n g =
      (m + (direction_delta (canonical g)).1, n + (direction_delta (canonical g)).2) := by
  unfold move_ball direction_delta
  split_ifs <;> simp <;> omega

/-- C9: a completed game increments the total-games counter `tt` exactly
twice, once at the entry of `main_game_loop` and once in `game_over`
before the final score is computed; hence from the initial shared state
(`tt = -1`) the first completed game shows final score `600 + t`. -/
theorem C9_double_increment_first_game_score :
    (∀ s : Globals, (main_game_loop_enter s).tt = s.tt + 1) ∧
    (∀ s : Globals, (game_over_step s).1.tt = s.tt + 1) ∧
    (∀ s : Globals, ∀ t_end : Int, (completed_game s t_end).1.tt = s.tt + 2) ∧
    (∀ t_end : Int, (completed_game initial_globals t_end).2 = 600 + t_end) := by
  refine ⟨fun s => rfl, fun s => rfl, fun s t_end => ?_, fun t_end => ?_⟩
  · show s.tt + 1 + 1 = s.tt + 2
    omega
  · show (-1 + 1 + 1) * 600 + t_end = 600 + t_end
    omega

/-- C10: the per-frame input handling keeps the paddle position in
bounds: from any `1 ≤ a ≤ 28` and any combination of pressed keys, the
updated position again satisfies `1 ≤ a ≤ 28`. -/
theorem C10_input_step_bounds (o p lshift rshift : Bool) (a : Int)
    (h1 : 1 ≤ a) (h2 : a ≤ 28) :
    1 ≤ input_step o p lshift rshift a ∧ input_step o p lshift rshift a ≤ 28 := by
  unfold input_step input_right2 input_right input_left2 input_left
  split_ifs <;> omega

/-- Witness for C10 at a concrete input: all four moves fire from
`a = 13` and the result stays in bounds. -/
theorem C10_input_step_bounds_witness :
    1 ≤ input_step true true true false 13 ∧ input_step true true true false 13 ≤ 28 :=
  C10_input_step_bounds true true true false 13 (by decide) (by decide)

/-- C4: `check_boundaries` equals the flat three-case wall rule of the
claim: down-left when past the right wall moving right, down-right when
past the left wall moving left, down when past the top moving upward
unless a left/right-wall case already returned, and `g` unchanged in
every other case. -/
theorem C4_check_boundaries_rule (m n g w : Int) :
    check_boundaries m n g w = boundary_rule m n g w := by
  unfold check_boundaries check_boundaries_top boundary_rule
  split_ifs <;> first | rfl | omega

/-- C5: `check_paddle_collision` detects a hit exactly when `m = 20` and
`a ≤ n ≤ a + 3`; on a hit it adds 10 to the score counter `t` and
returns up-left for `n = a` or `n = a + 1`, up for `n = a + 2`, and
up-right for `n = a + 3`; otherwise it returns `g` with the shared state
unchanged. -/
theorem C5_check_paddle_collision_rule (m n a g : Int) (s : Globals) :
    check_paddle_collision m n a g s = paddle_rule m n a g s := by
  unfold check_paddle_collision paddle_rule
  split_ifs <;> first | rfl | (exfalso; omega)

/-- C6 counterexample: the claim that all three helpers modify none of
the shared scalar variables fails at a concrete input, because on a
paddle hit `check_paddle_collision` changes the score counter `t`. -/
theorem C6_counterexample :
    (check_paddle_collision 20 13 13 D_DOWN initial_globals).2 ≠ initial_globals ∧
    (check_paddle_collision 20 13 13 D_DOWN initial_globals).2.t = 10 ∧
    initial_globals.t = 0 :=
  ⟨by decide, by decide, by decide⟩

/-- C6 amended: `move_ball` and `check_boundaries` are pure and leave
the shared state unchanged; `check_paddle_collision` leaves `tt`, `a`,
`w`, `g`, `r` unchanged and changes only the score counter `t`, adding
10 exactly on a paddle hit. -/
theorem C6_helper_effects (m n a g w : Int) (s : Globals) :
    (move_ball_s m n g s).2 = s ∧
    (check_boundaries_s m n g w s).2 = s ∧
    (check_paddle_collision m n a g s).2.tt = s.tt ∧
    (check_paddle_collision m n a g s).2.a = s.a ∧
    (check_paddle_collision m n a g s).2.w = s.w ∧
    (check_paddle_collision m n a g s).2.g = s.g ∧
    (check_paddle_collision m n a g s).2.r = s.r ∧
    (check_paddle_collision m n a g s).2.t =
      (if m = 20 ∧ a ≤ n ∧ n ≤ a + 3 then s.t + 10 else s.t) := by
  refine ⟨rfl, rfl, ?_, ?_, ?_, ?_, ?_, ?_⟩ <;>
    (unfold check_paddle_collision; split_ifs <;> first | rfl | (exfalso; omega))

/-- C7: every ball state reachable inside a round, from any round start
`m = 10`, `8 ≤ n ≤ 21`, `g = D_DOWN`, under any sequence of paddle
positions `1 ≤ a ≤ 28`, satisfies `0 ≤ n ≤ 31`, `0 ≤ m` and `m ≤ 21`;
steps happen only while the round loop guard `m ≤ 20` holds. -/
theorem C7_ball_in_bounds (b : Ball) (h : Reachable b) :
    0 ≤ b.n ∧ b.n ≤ 31 ∧ 0 ≤ b.m ∧ b.m ≤ 21 := by
  induction h with
  | start n0 h8 h21 =>
      exact ⟨show (0 : Int) ≤ n0 by omega, show n0 ≤ 31 by omega,
        show (0 : Int) ≤ 10 by omega, show (10 : Int) ≤ 21 by omega⟩
  | step b a w s hr hm ha1 ha2 ih =>
      exact frame_step_inv a w b s ih.2.2.1 hm ih.1 ih.2.1

/-- Witness for C7: the state after one frame step from the round start
`(10, 8, D_DOWN)` with paddle at 13 is reachable and in bounds. -/
theorem C7_ball_in_bounds_witness :
    0 ≤ ((frame_step 13 0 ⟨10, 8, D_DOWN⟩ initial_globals).1).n ∧
    ((frame_step 13 0 ⟨10, 8, D_DOWN⟩ initial_globals).1).n ≤ 31 ∧
    0 ≤ ((frame_step 13 0 ⟨10, 8, D_DOWN⟩ initial_globals).1).m ∧
    ((frame_step 13 0 ⟨10, 8, D_DOWN⟩ initial_globals).1).m ≤ 21 :=
  C7_ball_in_bounds _
    (Reachable.step ⟨10, 8, D_DOWN⟩ 13 0 initial_globals
      (Reachable.start 8 (by decide) (by decide)) (by decide) (by decide) (by decide))

/-- C8: `canonical` maps 106, 125, 145, 166, 206 to their canonical
directions and every other code to itself; `move_ball` treats any code
exactly as its canonical form; and `check_boundaries` applies the same
wall rules to a code as to its canonical form, up to canonicalizing the
returned direction. -/
theorem C8_variant_codes :
    (∀ g : Int, canonical g =
      (if g = 106 then D_DOWN_RIGHT
       else if g = 125 then D_UP_RIGHT
       else if g = 145 then D_UP_LEFT
       else if g = 166 then D_DOWN_LEFT
       else if g = 206 then D_DOWN
       else g)) ∧
    (∀ m n g : Int, move_ball m n g = move_ball m n (canonical g)) ∧
    (∀ m n g w : Int,
      canonical (check_boundaries m n g w) = check_boundaries m n (canonical g) w) := by
  refine ⟨fun g => rfl, fun m n g => ?_, fun m n g w => ?_⟩
  · unfold move_ball
    rw [canonical_idem]
  · unfold check_boundaries check_boundaries_top
    rw [canonical_idem]
    split_ifs <;> first | rfl | decide

end ThruTheWall
